import Mathlib

/-!
A shallow embedding of the karakeep-homeassistant integration's core logic:
the poll-tick refresh (`async_update_data` in
src/custom_components/karakeep/__init__.py), the health binary sensor
(src/custom_components/karakeep/binary_sensor.py), the API client's request
construction and token masking (src/api.py), and the setup/reconfigure config
flow (src/config_flow.py).  Python dictionaries are modelled as
insertion-ordered association lists, exceptions as explicit `Except` values,
and the aiohttp / Home Assistant framework behaviour the code relies on
(exception-clause matching, coordinator refresh, voluptuous schema
validation) is embedded explicitly where the code depends on it.
-/

namespace Karakeep

/-- Lookup in a Python `dict` modelled as an insertion-ordered association
list: `d.get(k)` / `d[k]`, returning the value of the first (in a real dict:
only) entry whose key is `k`. -/
def pyGet {V : Type} (d : List (String × V)) (k : String) : Option V :=
  match d with
  | [] => none
  | (k', v) :: rest => if k = k' then some v else pyGet rest k

/-- Replacement of the value stored under an existing key, in place: the
entry for `k` (unique in a real dict) keeps its position and gets the new
value; all other entries are untouched. -/
def pyReplace {V : Type} (d : List (String × V)) (k : String) (v : V) :
    List (String × V) :=
  match d with
  | [] => []
  | (k', w) :: rest =>
    if k' = k then (k, v) :: rest else (k', w) :: pyReplace rest k v

/-- Python `d[k] = v` on a dict modelled as an insertion-ordered association
list: if the key is present its value is replaced in place (insertion order
kept), otherwise the pair is appended at the end. -/
def pyInsert {V : Type} (d : List (String × V)) (k : String) (v : V) :
    List (String × V) :=
  if (pyGet d k).isSome then pyReplace d k v else d ++ [(k, v)]

theorem pyGet_pyReplace_self {V : Type} (d : List (String × V)) (k : String)
    (v : V) (h : (pyGet d k).isSome) :
    pyGet (pyReplace d k v) k = some v := by
  induction d with
  | nil => simp [pyGet] at h
  | cons hd tl ih =>
    obtain ⟨a, b⟩ := hd
    by_cases hak : a = k
    · simp [pyReplace, hak, pyGet]
    · have hka : ¬ k = a := fun hh => hak hh.symm
      simp only [pyGet, if_neg hka] at h
      simp [pyReplace, hak, pyGet, hka, ih h]

theorem pyGet_pyReplace_ne {V : Type} (d : List (String × V)) (k : String)
    (v : V) (k' : String) (h : k' ≠ k) :
    pyGet (pyReplace d k v) k' = pyGet d k' := by
  induction d with
  | nil => simp [pyReplace]
  | cons hd tl ih =>
    obtain ⟨a, b⟩ := hd
    by_cases hak : a = k
    · subst hak
      simp [pyReplace, pyGet, h, ih]
    · by_cases hk' : k' = a
      · simp [pyReplace, hak, pyGet, hk']
      · simp [pyReplace, hak, pyGet, hk', ih]

theorem pyGet_append_single {V : Type} (d : List (String × V)) (k k' : String)
    (v : V) :
    pyGet (d ++ [(k, v)]) k' =
      if (pyGet d k').isSome then pyGet d k'
      else if k' = k then some v else none := by
  induction d with
  | nil => simp [pyGet]
  | cons hd tl ih =>
    obtain ⟨a, b⟩ := hd
    by_cases h : k' = a <;> simp [pyGet, h, ih]

theorem pyInsert_get_self {V : Type} (d : List (String × V)) (k : String)
    (v : V) : pyGet (pyInsert d k v) k = some v := by
  unfold pyInsert
  by_cases h : (pyGet d k).isSome
  · rw [if_pos h]; exact pyGet_pyReplace_self d k v h
  · rw [if_neg h, pyGet_append_single, if_neg h, if_pos rfl]

theorem pyInsert_get_ne {V : Type} (d : List (String × V)) (k : String)
    (v : V) (k' : String) (h : k' ≠ k) :
    pyGet (pyInsert d k v) k' = pyGet d k' := by
  unfold pyInsert
  by_cases hs : (pyGet d k).isSome
  · rw [if_pos hs]; exact pyGet_pyReplace_ne d k v k' h
  · rw [if_neg hs, pyGet_append_single]
    by_cases h' : (pyGet d k').isSome
    · rw [if_pos h']
    · rw [if_neg h', if_neg h]
      cases hg : pyGet d k' with
      | none => rfl
      | some w => rw [hg] at h'; simp at h'

theorem pyInsert_get_inv {V : Type} (d : List (String × V)) (k : String)
    (v : V) (k' : String) (w : V)
    (h : pyGet (pyInsert d k v) k' = some w) :
    k' = k ∨ pyGet d k' = some w := by
  by_cases hk : k' = k
  · exact Or.inl hk
  · right; rw [← pyInsert_get_ne d k v k' hk]; exact h

/-- `UpdateFailed(err)` as raised by `async_update_data`
(src/custom_components/karakeep/__init__.py line 51): a failure value
wrapping the exception that caused the tick to fail. -/
structure UpdateFailed (E : Type) where
  cause : E
deriving DecidableEq

/-- One poll tick, `async_update_data`
(src/custom_components/karakeep/__init__.py lines 35-51).  The two awaited
calls are supplied as their outcomes: `statsRes` for
`client.async_get_stats()` and `healthRes` for `client.async_get_health()`.
The second component of the result records whether the health fetch was
awaited during the tick.  Mirrors the source: the stats call runs first; an
exception from it jumps to the `except` clause before the health call is
reached; on success of both, `data["health"] = health_data` and `data` is
returned; any exception is re-raised as `UpdateFailed(err)`. -/
def async_update_data (E : Type) {V : Type}
    (statsRes : Except E (List (String × V))) (healthRes : Except E V) :
    Except (UpdateFailed E) (List (String × V)) × Bool :=
  match statsRes with
  | .error e => (.error ⟨e⟩, false)
  | .ok data =>
    match healthRes with
    | .error e => (.error ⟨e⟩, true)
    | .ok health_data => (.ok (pyInsert data "health" health_data), true)

/-- Home Assistant's `DataUpdateCoordinator` refresh step, as the integration
relies on it: when the update method returns a snapshot the coordinator
publishes it and marks the update successful; when it raises `UpdateFailed`
the coordinator keeps its previously published data as the last-known-good
value and marks the update unsuccessful.  (Framework behaviour of the
`homeassistant.helpers.update_coordinator` dependency.) -/
def coordinatorStep {E V : Type} (prior : Option V)
    (res : Except (UpdateFailed E) V) : Option V × Bool :=
  match res with
  | .ok snap => (some snap, true)
  | .error _ => (prior, false)

/-- C1: on success of both fetches one tick returns the stats dict updated
with `"health"` bound to the health result: the `"health"` key is bound to
`H`, every other key of `S` is present unchanged, and no key outside `S`
other than `"health"` is present.  (Amended from the claim: when `S` itself
contains a `"health"` key, that key's value is overwritten by `H` rather
than left unchanged.) -/
theorem C1_refresh_merge (E : Type) {V : Type} (S : List (String × V))
    (H : V) :
    async_update_data E (Except.ok S) (Except.ok H) =
        (Except.ok (pyInsert S "health" H), true) ∧
    pyGet (pyInsert S "health" H) "health" = some H ∧
    (∀ k, k ≠ "health" → pyGet (pyInsert S "health" H) k = pyGet S k) ∧
    (∀ k v, pyGet (pyInsert S "health" H) k = some v →
      k = "health" ∨ pyGet S k = some v) := by
  refine ⟨rfl, pyInsert_get_self S "health" H, ?_, ?_⟩
  · exact fun k hk => pyInsert_get_ne S "health" H k hk
  · exact fun k v h => pyInsert_get_inv S "health" H k v h

/-- C1 counterexample: with a stats response that itself contains a
`"health"` key, `S = {"health": 0}` and health result `H = 1`, the tick
returns `{"health": 1}`, so the key `"health"` of `S` is not present
unchanged under its original name, contrary to the claim as stated. -/
theorem C1_health_key_overwritten :
    (async_update_data Unit (Except.ok [("health", (0 : Int))])
        (Except.ok 1)).1 = Except.ok [("health", (1 : Int))] ∧
    pyGet [("health", (1 : Int))] "health" ≠ some 0 := by
  constructor
  · rfl
  · decide

/-- C2: when the stats fetch fails with error `e`, the tick returns the
failure `UpdateFailed e` and the health fetch is never awaited (the second
component is `false`), whatever the health call would have produced. -/
theorem C2_stats_failure_short_circuits (E : Type) {V : Type} (e : E)
    (healthRes : Except E V) :
    async_update_data E (Except.error e) healthRes =
      (Except.error ⟨e⟩, false) := rfl

/-- C3: when the stats fetch succeeds but the health fetch fails, the tick
as a whole fails with `UpdateFailed e` (no snapshot value is returned, so no
partial snapshot lacking `"health"` can be published), and the coordinator
keeps the previously published snapshot, if any, unchanged as the
last-known-good value. -/
theorem C3_health_failure_fails_tick (E : Type) {V : Type}
    (S : List (String × V)) (e : E) (prior : Option (List (String × V))) :
    async_update_data E (Except.ok S) (Except.error e) =
        (Except.error ⟨e⟩, true) ∧
    (∀ snap, (async_update_data E (Except.ok S) (Except.error e)).1 ≠
        Except.ok snap) ∧
    coordinatorStep prior
        (async_update_data E (Except.ok S) (Except.error e)).1 =
      (prior, false) := by
  refine ⟨rfl, ?_, rfl⟩
  intro snap h
  simp [async_update_data] at h

/-- A health response dict as the binary sensor reads it: the two fields
`"status_code"` and `"status"`, each possibly missing.  `none` models a dict
in which the field is absent. -/
structure HealthData where
  status_code : Option Int
  status : Option String
deriving DecidableEq

/-- `KarakeepHealthSensor.is_on`
(src/custom_components/karakeep/binary_sensor.py lines 80-104).
`healthEntry` is `coordinator.data.get("health", ...)` before defaulting:
`none` when the `"health"` key is absent from the snapshot, in which case
the source's default `{}` (a dict with both fields missing) is used.  Then
`status_code = health_data.get("status_code", 0)`,
`status = health_data.get("status", "unknown")`, and the problem state is
`status_code != 200 or status.lower() != "ok"`. -/
def is_on (healthEntry : Option HealthData) : Bool :=
  let health_data := healthEntry.getD ⟨none, none⟩
  let status_code := health_data.status_code.getD 0
  let status := health_data.status.getD "unknown"
  decide (status_code ≠ 200) || decide (status.toLower ≠ "ok")

/-- C4: the health problem predicate is `false` exactly when the (defaulted)
status code equals 200 and the (defaulted) status text lowercased equals
`"ok"`; a missing status code is treated as 0 and a missing status text as
`"unknown"`, and an entirely absent `"health"` entry yields a problem state
of `true`.  The function is total by construction. -/
theorem C4_health_problem_iff (healthEntry : Option HealthData) :
    (is_on healthEntry = false ↔
      (healthEntry.getD ⟨none, none⟩).status_code.getD 0 = 200 ∧
      ((healthEntry.getD ⟨none, none⟩).status.getD "unknown").toLower = "ok") ∧
    is_on none = true := by
  constructor
  · simp [is_on]
  · decide

/-- Python `s[:n]`: the first `n` characters (all of `s` when it is
shorter). -/
def pyTake (s : String) (n : Nat) : String := String.mk (s.toList.take n)

/-- Python `s[-n:]`: the last `n` characters (all of `s` when it is
shorter). -/
def pyTakeLast (s : String) (n : Nat) : String :=
  String.mk (s.toList.drop (s.toList.length - n))

/-- The masked token portion of the debug-log header built in
`KarakeepClient.async_get_stats` (src/api.py line 58):
`token[:5] + "..." + (token[-5:] if len(token) > 10 else "")`. -/
def maskToken (t : String) : String :=
  pyTake t 5 ++ "..." ++ (if 10 < t.length then pyTakeLast t 5 else "")

/-- C8: the masked form of a token of length above 10 is its first five
characters, then `"..."`, then its last five characters; for length at most
10 the suffix portion is empty; in either case the exposed portions are at
most five characters each. -/
theorem C8_token_masking (t : String) :
    (10 < t.length → maskToken t = pyTake t 5 ++ "..." ++ pyTakeLast t 5) ∧
    (t.length ≤ 10 → maskToken t = pyTake t 5 ++ "..." ++ "") ∧
    (pyTake t 5).length ≤ 5 ∧ (pyTakeLast t 5).length ≤ 5 := by
  refine ⟨?_, ?_, ?_, ?_⟩
  · intro h; simp [maskToken, h]
  · intro h; simp [maskToken, Nat.not_lt.mpr h]
  · show (t.toList.take 5).length ≤ 5
    simp [List.length_take]
  · show (t.toList.drop (t.toList.length - 5)).length ≤ 5
    simp [List.length_drop]
    omega

/-- The API client's stored state after `KarakeepClient.__init__`
(src/api.py lines 17-40): `self._url = base_url.rstrip("/")` and
`self._token = token`. -/
structure KarakeepClient where
  url : String
  token : String
deriving DecidableEq

/-- Python `s.rstrip("/")`: removes every trailing `'/'` character. -/
def rstripSlashes (s : String) : String :=
  String.mk ((s.toList.reverse.dropWhile (fun c => c == '/')).reverse)

def KarakeepClient.init (base_url token : String) : KarakeepClient :=
  ⟨rstripSlashes base_url, token⟩

/-- An outgoing HTTP GET request: target URL and headers. -/
structure HttpRequest where
  url : String
  headers : List (String × String)
deriving DecidableEq

/-- Request construction in `KarakeepClient.async_get_stats` (src/api.py
lines 57-72).  The first component is the `headers` dict of line 58, built
with the masked token and used only in the `_LOGGER.debug` call; the second
is the request actually sent by `self._session.get` on lines 68-71, whose
`Authorization` header carries the full token. -/
def async_get_stats_request (c : KarakeepClient) :
    List (String × String) × HttpRequest :=
  ([("Authorization", "Bearer " ++ maskToken c.token)],
   ⟨c.url ++ "/api/v1/users/me/stats",
    [("Authorization", "Bearer " ++ c.token)]⟩)

/-- C10: the GET request issued by the stats fetch goes to
`{normalized base URL}/api/v1/users/me/stats` and carries
`Authorization: Bearer {token}` with the full, unmodified token; the masked
token form appears only in the debug-log headers, not in the sent
request. -/
theorem C10_request_full_token (base_url token : String) :
    (async_get_stats_request (KarakeepClient.init base_url token)).2.url =
        rstripSlashes base_url ++ "/api/v1/users/me/stats" ∧
    (async_get_stats_request (KarakeepClient.init base_url token)).2.headers =
        [("Authorization", "Bearer " ++ token)] ∧
    (async_get_stats_request (KarakeepClient.init base_url token)).1 =
        [("Authorization", "Bearer " ++ maskToken token)] :=
  ⟨rfl, rfl, rfl⟩

/-- Python `s.strip()`: removes leading and trailing whitespace. -/
def pyStrip (s : String) : String :=
  String.mk
    (((s.toList.dropWhile Char.isWhitespace).reverse.dropWhile
        Char.isWhitespace).reverse)

/-- Splits a character list at its first occurrence of `sep`, when there is
one: Python's `str.partition` / `str.find` on a single character. -/
def splitFirstChar (sep : Char) : List Char → Option (List Char × List Char)
  | [] => none
  | c :: cs =>
    if c = sep then some ([], cs)
    else
      match splitFirstChar sep cs with
      | some (before, after) => some (c :: before, after)
      | none => none

/-- Python's `str.split(sep)` for a single-character separator: `""` splits
to `[""]`, `":"` splits to `["", ""]`. -/
def splitOnChar (sep : Char) : List Char → List (List Char)
  | [] => [[]]
  | c :: cs =>
    let r := splitOnChar sep cs
    if c = sep then [] :: r
    else
      match r with
      | [] => [[c]]
      | h :: t => (c :: h) :: t

/-- A character allowed in a URL scheme after the first (letters, digits,
`'+'`, `'-'`, `'.'`), as `urllib.parse` accepts them. -/
def isSchemeChar (c : Char) : Bool :=
  c.isAlphanum || c == '+' || c == '-' || c == '.'

/-- An ASCII hexadecimal digit, as `ipaddress._parse_hextet` and the
IPvFuture pattern accept them. -/
def isHexChar (c : Char) : Bool :=
  c.isDigit ||
    (decide (97 ≤ c.toNat) && decide (c.toNat ≤ 102)) ||
    (decide (65 ≤ c.toNat) && decide (c.toNat ≤ 70))

/-- One dotted-quad octet, `ipaddress.IPv4Address._parse_octet`: one to
three ASCII digits, no leading zero (except `"0"` itself), value at most
255. -/
def validOctet (cs : List Char) : Bool :=
  !cs.isEmpty && cs.all Char.isDigit && decide (cs.length ≤ 3) &&
    !(decide (2 ≤ cs.length) && (cs.headD ' ' == '0')) &&
    decide ((cs.foldl (fun acc c => acc * 10 + (c.toNat - 48)) 0) ≤ 255)

/-- `ipaddress.IPv4Address` textual validity: no `'/'`, exactly four
octets separated by `'.'`, each a valid octet. -/
def isValidIPv4 (cs : List Char) : Bool :=
  !(cs.contains '/') &&
    (let octets := splitOnChar '.' cs
     decide (octets.length = 4) && octets.all validOctet)

/-- One 16-bit group of an IPv6 address,
`ipaddress.IPv6Address._parse_hextet`: one to four hex digits. -/
def validHextet (cs : List Char) : Bool :=
  !cs.isEmpty && cs.all isHexChar && decide (cs.length ≤ 4)

/-- The part-count and `'::'` analysis of
`ipaddress.IPv6Address._ip_int_from_string`, applied to the colon-split
parts (an embedded IPv4 last part already replaced by two placeholder
hextets): at most 9 parts; at most one empty interior part (the `'::'`); an
empty first or last part only next to the `'::'`; without a `'::'` exactly
8 parts with first and last nonempty; with one, at least one group must be
skipped; every part outside the `'::'` a valid hextet. -/
def ipv6PartsOK (parts : List (List Char)) : Bool :=
  let n := parts.length
  if decide (9 < n) then false
  else
    let interior := (parts.drop 1).dropLast
    let emptiesCount := (interior.filter List.isEmpty).length
    if decide (2 ≤ emptiesCount) then false
    else if emptiesCount = 1 then
      let skipIdx := 1 + interior.findIdx List.isEmpty
      let firstEmpty := (parts.headD [' ']).isEmpty
      let lastEmpty := (parts.getLastD [' ']).isEmpty
      let hi := if firstEmpty then skipIdx - 1 else skipIdx
      let lo := (n - skipIdx - 1) - (if lastEmpty then 1 else 0)
      if firstEmpty && decide (hi ≠ 0) then false
      else if lastEmpty && decide (lo ≠ 0) then false
      else if decide (7 < hi + lo) then false
      else (parts.take hi).all validHextet && (parts.drop (n - lo)).all validHextet
    else
      decide (n = 8) && !(parts.headD [' ']).isEmpty &&
        !(parts.getLastD [' ']).isEmpty && parts.all validHextet

/-- `ipaddress.IPv6Address` textual validity without a scope id: nonempty,
at least three colon-separated parts, an embedded dotted-quad last part
must be a valid IPv4 address (standing for two 16-bit groups), and the
parts pass the `'::'` analysis. -/
def isValidIPv6NoScope (cs : List Char) : Bool :=
  if cs.isEmpty then false
  else
    let parts := splitOnChar ':' cs
    if decide (parts.length < 3) then false
    else
      let last := parts.getLastD []
      if last.contains '.' then
        isValidIPv4 last && ipv6PartsOK (parts.dropLast ++ [['0'], ['0']])
      else ipv6PartsOK parts

/-- `ipaddress.IPv6Address` textual validity including
`_split_scope_id`: no `'/'`; an optional `'%'`-separated scope id that, when
the separator is present, must be nonempty and contain no further `'%'`. -/
def isValidIPv6 (cs : List Char) : Bool :=
  !(cs.contains '/') &&
    (match splitFirstChar '%' cs with
     | none => isValidIPv6NoScope cs
     | some (addr, zone) =>
       !zone.isEmpty && !(zone.contains '%') && isValidIPv6NoScope addr)

/-- The IPvFuture check of `urllib.parse._check_bracketed_host`: the
hostname matches `v[hex]+\.` followed by at least one character (none a
newline, which the regex `.` excludes). -/
def isValidIPvFuture (cs : List Char) : Bool :=
  match cs with
  | 'v' :: rest =>
    let hexRun := rest.takeWhile isHexChar
    !hexRun.isEmpty &&
      (match rest.drop hexRun.length with
       | '.' :: afterDot =>
         !afterDot.isEmpty && afterDot.all (fun c => !(c == '\n'))
       | _ => false)
  | _ => false

/-- `netloc.partition('[')[2].partition(']')[0]`: the text after the first
`'['` up to the next `']'` (or to the end when no `']'` follows it). -/
def bracketedHost (netloc : List Char) : List Char :=
  match splitFirstChar '[' netloc with
  | none => []
  | some (_, afterBracket) =>
    match splitFirstChar ']' afterBracket with
    | none => afterBracket
    | some (inside, _) => inside

/-- `urllib.parse._check_bracketed_host`: a hostname starting with a
lowercase `'v'` must be a valid IPvFuture address; otherwise
`ipaddress.ip_address` must succeed and yield an IPv6 address (a bracketed
IPv4 address is explicitly rejected, and `ip_address` tries IPv4 before
IPv6). -/
def bracketedHostOK (host : List Char) : Bool :=
  match host with
  | 'v' :: _ => isValidIPvFuture host
  | _ => if isValidIPv4 host then false else isValidIPv6 host

/-- The two components of `urllib.parse.urlparse` that the config flow
reads (src/config_flow.py lines 82-96). -/
structure UrlParts where
  scheme : String
  netloc : String
deriving DecidableEq

/-- `urllib.parse.urlparse` as CPython 3.11+ (the Python Home Assistant
runs) implements `urlsplit`, restricted to the `scheme` and `netloc`
components and to the `ValueError` outcome (`none`) that
`_async_handle_config_step` catches at src/config_flow.py lines 208-213.
Steps, in source order: strip leading WHATWG C0-control-or-space
characters; remove every `'\t'`, `'\r'` and `'\n'`; the part before the
first `':'` is the scheme when it is an ASCII letter followed by scheme
characters (lowercased; otherwise the URL has no scheme and is parsed
whole); when the remainder starts with `"//"` the netloc is what follows up
to the next `'/'`, `'?'` or `'#'`, a `'['` or `']'` without its partner in
the netloc raises `ValueError("Invalid IPv6 URL")`, and a bracketed host is
validated by `_check_bracketed_host` (raising `ValueError` when invalid).
The NFKC re-check of netlocs containing non-ASCII characters that normalize
into `'/?#@:'` is a no-op on ASCII netlocs and is not modelled. -/
def urlparse (url : String) : Option UrlParts :=
  let cs0 := url.toList.dropWhile (fun c => decide (c.toNat ≤ 32))
  let cs := cs0.filter (fun c => !(c == '\t' || c == '\r' || c == '\n'))
  let schemeRest : List Char × List Char :=
    match splitFirstChar ':' cs with
    | some (before, after) =>
      match before with
      | [] => ([], cs)
      | c :: _ =>
        if c.isAlpha && before.all isSchemeChar then
          (before.map Char.toLower, after)
        else ([], cs)
    | none => ([], cs)
  match schemeRest.2 with
  | '/' :: '/' :: r =>
    let netloc := r.takeWhile (fun c => !(c == '/' || c == '?' || c == '#'))
    let hasOpen := netloc.contains '['
    let hasClose := netloc.contains ']'
    if (hasOpen && !hasClose) || (hasClose && !hasOpen) then none
    else if hasOpen && hasClose && !bracketedHostOK (bracketedHost netloc) then
      none
    else some ⟨String.mk schemeRest.1, String.mk netloc⟩
  | _ => some ⟨String.mk schemeRest.1, String.mk []⟩

/-- The URL-format acceptance test of `_async_handle_config_step`
(src/config_flow.py line 89): the negation of
`parsed.scheme not in ("http", "https") or not parsed.netloc`. -/
def urlFormatOK (p : UrlParts) : Bool :=
  ((p.scheme == "http") || (p.scheme == "https")) && !(p.netloc == "")

/-- Whether a raw URL string gets past both rejection points of the step
handler that precede the probe: `urlparse` does not raise `ValueError`, and
the parsed scheme/netloc pass the format test. -/
def urlAccepted (url : String) : Bool :=
  match urlparse url with
  | none => false
  | some parsed => urlFormatOK parsed

/-- An existing Home Assistant config entry as the duplicate check reads it:
its id and its stored `CONF_URL` and `CONF_TOKEN` data. -/
structure HAConfigEntry where
  entry_id : Nat
  url : String
  token : String
deriving DecidableEq

/-- The per-entry condition of the duplicate-prevention loop
(src/config_flow.py lines 118-129):
`(existing_entry is None or existing.entry_id != existing_entry.entry_id)
and existing.data.get(CONF_URL) == normalized_url`. -/
def duplicateCheckHit (excludeId : Option Nat) (ex : HAConfigEntry)
    (normalizedUrl : String) : Bool :=
  (match excludeId with
   | none => true
   | some i => decide (ex.entry_id ≠ i)) && decide (ex.url = normalizedUrl)

/-- The exceptions that can escape the probe (`client.async_get_stats`),
organised by the aiohttp classes the flow's `except` clauses test against:
`clientConnectorError` for connection failures, `clientResponseError s` for
HTTP error statuses (this includes the `ContentTypeError` subclass),
`timeoutError` for `asyncio.TimeoutError` raised when the request exceeds
the timeout, `invalidURL` for `aiohttp.InvalidURL`, `otherClientError` for
any other `aiohttp.ClientError`, and `otherException` for anything else. -/
inductive ProbeExc where
  | clientConnectorError
  | clientResponseError (status : Int)
  | timeoutError
  | invalidURL
  | otherClientError
  | otherException
deriving DecidableEq

/-- The result of one submitted config-flow step. -/
inductive StepResult where
  /-- The form is shown again, with `errors["base"]` when set. -/
  | showForm (errorBase : Option String)
  /-- `async_abort(reason)`; no entry is created or updated on this path. -/
  | abort (reason : String)
  /-- `async_update_entry` on the existing entry with the given data,
  followed by `async_abort(reason="reconfigure_successful")`. -/
  | updateEntry (url token : String) (scan_interval : Int)
  /-- `async_create_entry` with the given data. -/
  | createEntry (url token : String) (scan_interval : Int)
  /-- An exception of the named type escapes the step handler uncaught. -/
  | uncaught (excType : String)
  /-- The submitted form data fails the voluptuous schema; the form is shown
  again with an error on the named field and the handler never runs. -/
  | invalidInput (field : String)
deriving DecidableEq

/-- The probe `except` chain of `_async_handle_config_step`
(src/config_flow.py lines 154-206), with the clauses tried in source order:
`ClientConnectorError` then `ClientResponseError` (401, 404, other status)
and then `except ClientTimeout`.  `aiohttp.ClientTimeout` is the
timeout-configuration dataclass, not a `BaseException` subclass, so when
CPython tests a still-unmatched exception against that clause it raises
`TypeError` ("catching classes that do not inherit from BaseException is
not allowed"), which propagates out of the handler (the outer
`except ValueError` around URL parsing does not catch it).  The later
`except ClientError`, `except InvalidURL` and `except Exception` clauses,
with their `client_error`, `invalid_url` and `unknown` error codes, are
therefore unreachable. -/
def dispatchProbeExc : ProbeExc → StepResult
  | .clientConnectorError => .showForm (some "cannot_connect")
  | .clientResponseError s =>
    if s = 401 then .showForm (some "invalid_auth")
    else if s = 404 then .showForm (some "invalid_api_path")
    else .showForm (some "api_error")
  | _ => .uncaught "TypeError"

/-- The form-submission input read on src/config_flow.py lines 66-69. -/
structure StepInput where
  url : String
  token : String
  scan_interval : Int
deriving DecidableEq

/-- `_async_handle_config_step` with `user_input` present
(src/config_flow.py lines 64-213): strip the URL and token; parse the URL,
a `ValueError` from `urlparse` being caught by the `except ValueError`
clause of lines 208-213 and mapped to `invalid_url_format` with no probe;
test the parsed scheme/netloc (rejecting with `invalid_url_format` before
any network traffic); normalize the stripped URL with `rstrip("/")`; run
the probe, map a probe exception through the `except` chain, and on probe
success abort on a duplicate URL, update the existing entry on the
reconfigure step, or create a new entry.  The probe outcome is supplied as
`probe`; the second component of the result records whether the probe was
awaited. -/
def handleConfigStep (stepId : String) (entries : List HAConfigEntry)
    (existingEntry : Option HAConfigEntry) (input : StepInput)
    (probe : Except ProbeExc Unit) : StepResult × Bool :=
  let url := pyStrip input.url
  let token := pyStrip input.token
  match urlparse url with
  | none => (.showForm (some "invalid_url_format"), false)
  | some parsed =>
    if urlFormatOK parsed then
      let normalizedUrl := rstripSlashes url
      match probe with
      | .error e => (dispatchProbeExc e, true)
      | .ok _ =>
        match entries.find? (fun ex =>
            duplicateCheckHit (existingEntry.map HAConfigEntry.entry_id) ex
              normalizedUrl) with
        | some _ => (.abort "already_configured", true)
        | none =>
          if stepId = "reconfigure" ∧ existingEntry.isSome then
            (.updateEntry normalizedUrl token input.scan_interval, true)
          else (.createEntry normalizedUrl token input.scan_interval, true)
    else (.showForm (some "invalid_url_format"), false)

/-- The scan-interval validator of the form schema
(src/config_flow.py lines 237-246):
`vol.All(cv.positive_int, vol.Range(min=30))`, a function of the interval
alone, independent of the URL and token fields. -/
def scanIntervalValid (i : Int) : Bool := decide (0 < i) && decide (30 ≤ i)

/-- One form submission as Home Assistant processes it: the voluptuous
schema is applied to the submitted data before the step handler runs, so an
interval failing `scanIntervalValid` re-renders the form with a field error
and the handler, and hence the network probe, is never invoked.  (Framework
behaviour of the data-entry-flow / voluptuous dependencies.) -/
def configFlowSubmit (stepId : String) (entries : List HAConfigEntry)
    (existingEntry : Option HAConfigEntry) (input : StepInput)
    (probe : Except ProbeExc Unit) : StepResult × Bool :=
  if scanIntervalValid input.scan_interval then
    handleConfigStep stepId entries existingEntry input probe
  else (.invalidInput "scan_interval", false)

/-- C5 (code bug): the probe `except` chain maps a connection failure to
`cannot_connect` and HTTP statuses 401, 404 and others to `invalid_auth`,
`invalid_api_path` and `api_error`; but a timeout, a malformed transport
URL, any other aiohttp client error and any other exception all escape the
handler as an uncaught `TypeError`, because `except ClientTimeout` names
the aiohttp timeout-configuration class rather than an exception class, so
none of them is converted to the claimed user-facing error code and the
raw failure propagates. -/
theorem C5_probe_error_codes :
    dispatchProbeExc ProbeExc.clientConnectorError =
        StepResult.showForm (some "cannot_connect") ∧
    dispatchProbeExc (ProbeExc.clientResponseError 401) =
        StepResult.showForm (some "invalid_auth") ∧
    dispatchProbeExc (ProbeExc.clientResponseError 404) =
        StepResult.showForm (some "invalid_api_path") ∧
    dispatchProbeExc (ProbeExc.clientResponseError 500) =
        StepResult.showForm (some "api_error") ∧
    dispatchProbeExc ProbeExc.timeoutError = StepResult.uncaught "TypeError" ∧
    dispatchProbeExc ProbeExc.invalidURL = StepResult.uncaught "TypeError" ∧
    dispatchProbeExc ProbeExc.otherClientError =
        StepResult.uncaught "TypeError" ∧
    dispatchProbeExc ProbeExc.otherException =
        StepResult.uncaught "TypeError" := by
  decide

/-- C7: on a successful probe, when some configuration entry other than the
one being reconfigured stores the same normalized URL, the step aborts with
`already_configured` (the abort path creates and updates no entry), whatever
the submitted token is. -/
theorem C7_duplicate_url_aborts (stepId : String)
    (entries : List HAConfigEntry) (existingEntry : Option HAConfigEntry)
    (input : StepInput) (e : HAConfigEntry)
    (hmem : e ∈ entries)
    (hid : existingEntry.map HAConfigEntry.entry_id ≠ some e.entry_id)
    (hurl : e.url = rstripSlashes (pyStrip input.url))
    (hacc : urlAccepted (pyStrip input.url) = true) :
    handleConfigStep stepId entries existingEntry input (Except.ok ()) =
      (StepResult.abort "already_configured", true) := by
  have hhit : duplicateCheckHit (existingEntry.map HAConfigEntry.entry_id) e
      (rstripSlashes (pyStrip input.url)) = true := by
    unfold duplicateCheckHit
    cases hex : existingEntry.map HAConfigEntry.entry_id with
    | none => simp [hurl]
    | some j =>
      have hne : e.entry_id ≠ j := by
        intro hh
        apply hid
        rw [hex, hh]
      simp [hne, hurl]
  have hsome : (entries.find? (fun ex =>
      duplicateCheckHit (existingEntry.map HAConfigEntry.entry_id) ex
        (rstripSlashes (pyStrip input.url)))).isSome :=
    List.find?_isSome.mpr ⟨e, hmem, hhit⟩
  unfold urlAccepted at hacc
  unfold handleConfigStep
  cases hp : urlparse (pyStrip input.url) with
  | none => rw [hp] at hacc; simp at hacc
  | some parsed =>
    rw [hp] at hacc
    simp at hacc
    simp only [hp, hacc, if_true]
    cases hf : List.find? (fun ex =>
        duplicateCheckHit (existingEntry.map HAConfigEntry.entry_id) ex
          (rstripSlashes (pyStrip input.url))) entries with
    | none => rw [hf] at hsome; simp at hsome
    | some x => simp [hf]

/-- C7 witness: a second setup attempt for the already-configured URL
`"https://a.example"` with a different token aborts with
`already_configured`. -/
theorem C7_duplicate_url_aborts_check :
    handleConfigStep "user" [⟨1, "https://a.example", "tok1"⟩] none
        ⟨"https://a.example", "tok2", 60⟩ (Except.ok ()) =
      (StepResult.abort "already_configured", true) :=
  C7_duplicate_url_aborts "user" [⟨1, "https://a.example", "tok1"⟩] none
    ⟨"https://a.example", "tok2", 60⟩ ⟨1, "https://a.example", "tok1"⟩
    (by decide) (by decide) (by decide) (by decide)

/-- C9: the polling interval is validated by the schema (positive integer,
at least 30) independently of the URL and token; a submission whose
interval is below 30 is rejected before the step handler runs, so the
network probe is never issued for it. -/
theorem C9_interval_floor (stepId : String) (entries : List HAConfigEntry)
    (existingEntry : Option HAConfigEntry) (input : StepInput)
    (probe : Except ProbeExc Unit) (h : input.scan_interval < 30) :
    configFlowSubmit stepId entries existingEntry input probe =
        (StepResult.invalidInput "scan_interval", false) ∧
    scanIntervalValid input.scan_interval = false := by
  have hv : scanIntervalValid input.scan_interval = false := by
    unfold scanIntervalValid
    have : ¬ (30 ≤ input.scan_interval) := by omega
    simp [this]
  refine ⟨?_, hv⟩
  unfold configFlowSubmit
  simp [hv]

/-- C9 witness: an interval of 10 is rejected with no probe issued. -/
theorem C9_interval_floor_check :
    configFlowSubmit "user" [] none ⟨"https://host.example", "tok", 10⟩
        (Except.ok ()) = (StepResult.invalidInput "scan_interval", false) ∧
    scanIntervalValid 10 = false :=
  C9_interval_floor "user" [] none ⟨"https://host.example", "tok", 10⟩
    (Except.ok ()) (by decide)

end Karakeep
